import Mathlib

namespace HelloGutenberg

/-- JavaScript string truthiness for optional string values: `undefined`
and the empty string are falsy, every other string is truthy. -/
def tstr : Option String → Bool
  | none => false
  | some s => s ≠ ""

/-- Inline style object, as built by the source's `styles` locals. -/
structure Styles where
  backgroundColor : Option String := none
  textAlign : Option String := none
  deriving Repr, DecidableEq

/-- The element props that appear in the source's JSX. -/
structure ElProps where
  className : Option String := none
  style : Option Styles := none
  src : Option String := none
  controls : Bool := false
  href : Option String := none
  deriving Repr, DecidableEq

/-- Markup tree produced by the render/serialize functions. -/
inductive Node where
  | el (tag : String) (props : ElProps) (children : List Node)
  | text (s : String)

mutual

/-- Number of elements with the given tag in a markup tree. -/
def countTag (t : String) : Node → Nat
  | .el tag _ cs => (if tag = t then 1 else 0) + countTagL t cs
  | .text _ => 0

/-- Number of elements with the given tag in a list of trees. -/
def countTagL (t : String) : List Node → Nat
  | [] => 0
  | c :: cs => countTag t c + countTagL t cs

end

mutual

/-- The `src` props of all elements with the given tag, in document order. -/
def tagSrcs (t : String) : Node → List (Option String)
  | .el tag p cs => (if tag = t then [p.src] else []) ++ tagSrcsL t cs
  | .text _ => []

/-- The `src` props of all elements with the given tag in a list of trees. -/
def tagSrcsL (t : String) : List Node → List (Option String)
  | [] => []
  | c :: cs => tagSrcs t c ++ tagSrcsL t cs

end

/-- Tag of the root of a markup tree (text nodes have no tag). -/
def rootTag : Node → Option String
  | .el tag _ _ => some tag
  | .text _ => none

/-- Style prop of the root element of a markup tree. -/
def rootStyle : Node → Option Styles
  | .el _ p _ => p.style
  | .text _ => none

/-- Children of the root element of a markup tree. -/
def rootChildren : Node → List Node
  | .el _ _ cs => cs
  | .text _ => []

/-- The block's attribute record, per the `attributes` schema of the
registration object (block.js lines 45-76).  Rich-text `content` is
modelled as a sequence of text runs; optional attributes are `Option`. -/
structure Attributes where
  content : List String
  imgId : Option Nat := none
  imgUrl : Option String := none
  mediaType : Option String := none
  backgroundColor : Option String := none
  customBackgroundColor : Option String := none
  extras : Bool := true
  contentAlign : Option String := none
  deriving Repr, DecidableEq

/-- A media-picker selection object, per the fields the handler reads:
`url`, `id`, and either `media_type` or `type` (block.js lines 116-134). -/
structure MediaSelection where
  url : String
  id : Nat
  media_type : Option String := none
  type : Option String := none
  deriving Repr, DecidableEq

/-- The partial attribute update passed to `setAttributes` by the
media-selection handler: exactly `imgUrl`, `imgId` and `mediaType`. -/
structure MediaUpdate where
  imgUrl : Option String
  imgId : Option Nat
  mediaType : Option String
  deriving Repr, DecidableEq

/-- `onUploadImage` (block.js lines 116-135): derive `mediaType` from the
selection and hand `{ imgUrl, imgId, mediaType }` to the attribute setter.
`if ( media.media_type )` is a JS truthiness test, hence `tstr`. -/
def onUploadImage (media : MediaSelection) : MediaUpdate :=
  let mediaType : Option String :=
    if tstr media.media_type then
      if media.media_type = some "image" then some "image" else some "video"
    else
      media.type
  { imgUrl := some media.url, imgId := some media.id, mediaType := mediaType }

/-- The host's `setAttributes` applied to a media update: merge the three
fields of the update into the record, leaving the rest untouched. -/
def applyMediaUpdate (attrs : Attributes) (u : MediaUpdate) : Attributes :=
  { attrs with imgUrl := u.imgUrl, imgId := u.imgId, mediaType := u.mediaType }

/-- `getMedia` (block.js lines 137-146): an `<img>` for mediaType
`'image'`, otherwise a `<video controls>`; `src` is the closed-over
`imgUrl` in both cases. -/
def getMedia (imgUrl : Option String) (mediaType : Option String) : Node :=
  if mediaType = some "image" then
    .el "img" { src := imgUrl } []
  else
    .el "video" { src := imgUrl, controls := true } []

/-- The color object injected by the host's `withColors( 'backgroundColor' )`
wrapper: a resolved color value and a color class name.  The host computes
`colorClass` with the same theme color-class lookup the serializer calls
(`getColorClassName( 'background-color', attributes.backgroundColor )`),
which we keep as an explicit function parameter throughout. -/
structure ColorObject where
  color : Option String := none
  colorClass : Option String := none
  deriving Repr, DecidableEq

/-- A truthiness-guarded class-name entry, as the `classnames` library
treats one `{ [key]: value }` pair: the key appears iff the value is truthy. -/
def optClass : Option String → List String
  | none => []
  | some s => if s = "" then [] else [s]

/-- The `` `has-${ contentAlign }-content` `` entry, guarded by the
truthiness of `contentAlign`. -/
def alignContentClass : Option String → List String
  | none => []
  | some s => if s = "" then [] else ["has-" ++ s ++ "-content"]

/-- The class set the edit function computes from the attribute record
(the object argument of `classnames` at block.js lines 109-112):
`backgroundColor.class` and the alignment class. -/
def editAttrClasses (bg : ColorObject) (contentAlign : Option String) : List String :=
  optClass bg.colorClass ++ alignContentClass contentAlign

/-- The full class list of the edit wrapper `div` (block.js lines 109-112):
the host-supplied `className` followed by the attribute-derived classes. -/
def editClasses (className : Option String) (bg : ColorObject)
    (contentAlign : Option String) : List String :=
  optClass className ++ editAttrClasses bg contentAlign

/-- The editor-time footer (block.js lines 204-211). -/
def editFooter : Node :=
  .el "div" {} [
    .el "p" {} [.text "— Hello from the bssackend."],
    .el "p" {} [.text "CGB BLOCK: ",
      .el "code" {} [.text "cgb-hello-gutenberg"],
      .text " is a new Gutenberg block"]]

/-- The selection-only editor chrome (block.js lines 150-184): inspector
panel with the extras toggle and color settings, plus the alignment
toolbar.  None of it contains media elements. -/
def editChrome : List Node :=
  [.el "InspectorControls" {} [
      .el "PanelBody" {} [.el "ToggleControl" {} []],
      .el "PanelColorSettings" {} []],
   .el "BlockControls" {} [.el "AlignmentToolbar" {} []]]

/-- The `edit` render function (block.js lines 89-214): wrapper `div` with
classes and styles, selection chrome when selected, the media button
(placeholder icon when `imgUrl` is falsy, else `getMedia`), the rich-text
field, and the editor footer when `extras` is set. -/
def edit (className : Option String) (isSelected : Bool) (bg : ColorObject)
    (attrs : Attributes) : Node :=
  .el "div"
    { className := some (String.intercalate " "
        (editClasses className bg attrs.contentAlign)),
      style := some { backgroundColor := bg.color, textAlign := attrs.contentAlign } }
    ((if isSelected then editChrome else []) ++
     [.el "MediaUploadCheck" {} [
        .el "MediaUpload" {} [
          .el "Button" {} [
            if tstr attrs.imgUrl then
              getMedia attrs.imgUrl attrs.mediaType
            else
              .el "Dashicon" {} []]]],
      .el "RichText" {} (attrs.content.map .text)] ++
     (if attrs.extras then [editFooter] else []))

/-- `mediaTypeRenders` lookup followed by the `|| noop` call (block.js
lines 228-231 and 249): the `image` and `video` keys render the matching
element with `src={ props.attributes.imgUrl }`; any other `mediaType`
(absent included) misses the dictionary and `noop` renders nothing. -/
def saveMediaRender (attrs : Attributes) : List Node :=
  match attrs.mediaType with
  | some "image" => [.el "img" { src := attrs.imgUrl } []]
  | some "video" => [.el "video" { src := attrs.imgUrl, controls := true } []]
  | _ => []

/-- The serializer's class list (block.js lines 236-240): `has-background`
when either background attribute is truthy, the resolved background class,
and the alignment class.  `getColorClassName` is the theme color-class
lookup (an external host function), passed in explicitly. -/
def saveClasses (getColorClassName : Option String → Option String)
    (attrs : Attributes) : List String :=
  let backgroundClass := getColorClassName attrs.backgroundColor
  (if tstr attrs.backgroundColor || tstr attrs.customBackgroundColor
    then ["has-background"] else []) ++
  optClass backgroundClass ++
  alignContentClass attrs.contentAlign

/-- The serializer's inline style (block.js lines 242-245):
`customBackgroundColor` only when no background class resolved. -/
def saveStyles (getColorClassName : Option String → Option String)
    (attrs : Attributes) : Styles :=
  let backgroundClass := getColorClassName attrs.backgroundColor
  { backgroundColor := if tstr backgroundClass then none
      else attrs.customBackgroundColor,
    textAlign := attrs.contentAlign }

/-- The save-time footer (block.js lines 251-265). -/
def saveFooter : Node :=
  .el "div" {} [
    .el "p" {} [.text "CGB BLOCK: ",
      .el "code" {} [.text "cgb-hello-gutenberg"],
      .text " is a new Gutenberg block."],
    .el "p" {} [.text "It was created via ",
      .el "code" {} [
        .el "a" { href := some "https://github.com/ahmadawais/create-guten-block" }
          [.text "create-guten-block"]],
      .text "."]]

/-- The `save` serializer (block.js lines 225-268): wrapper `div` with the
computed classes and styles, the media render (or nothing), the rich-text
content as a static `<p>`, and the footer when `extras` is set. -/
def save (getColorClassName : Option String → Option String)
    (attrs : Attributes) : Node :=
  .el "div"
    { className := some (String.intercalate " "
        (saveClasses getColorClassName attrs)),
      style := some (saveStyles getColorClassName attrs) }
    (saveMediaRender attrs ++
     [.el "p" {} (attrs.content.map .text)] ++
     (if attrs.extras then [saveFooter] else []))

theorem countTagL_append (t : String) (a b : List Node) :
    countTagL t (a ++ b) = countTagL t a + countTagL t b := by
  induction a with
  | nil => simp [countTagL]
  | cons c cs ih => simp [countTagL, ih]; omega

theorem countTagL_map_text (t : String) (l : List String) :
    countTagL t (l.map Node.text) = 0 := by
  induction l with
  | nil => rfl
  | cons s l ih => simp [countTagL, countTag, ih]

theorem tagSrcsL_append (t : String) (a b : List Node) :
    tagSrcsL t (a ++ b) = tagSrcsL t a ++ tagSrcsL t b := by
  induction a with
  | nil => simp [tagSrcsL]
  | cons c cs ih => simp [tagSrcsL, ih]

theorem tagSrcsL_map_text (t : String) (l : List String) :
    tagSrcsL t (l.map Node.text) = [] := by
  induction l with
  | nil => rfl
  | cons s l ih => simp [tagSrcsL, tagSrcs, ih]

theorem countTag_saveFooter_img : countTag "img" saveFooter = 0 := rfl

theorem countTag_saveFooter_video : countTag "video" saveFooter = 0 := rfl

/-- C1: the media-selection handler's `mediaType` branching: `media_type`
equal to `"image"` gives `"image"`; any other non-empty `media_type` gives
`"video"`; an absent `media_type` hands over the selection's `type` field. -/
theorem onUploadImage_mediaType_branching (media : MediaSelection) :
    (media.media_type = some "image" →
      (onUploadImage media).mediaType = some "image") ∧
    (∀ s : String, media.media_type = some s → s ≠ "" → s ≠ "image" →
      (onUploadImage media).mediaType = some "video") ∧
    (media.media_type = none →
      (onUploadImage media).mediaType = media.type) := by
  refine ⟨?_, ?_, ?_⟩
  · intro h
    simp [onUploadImage, h, tstr]
  · intro s h hne hni
    simp [onUploadImage, h, tstr, hne, hni]
  · intro h
    simp [onUploadImage, h, tstr]

theorem onUploadImage_mediaType_branching_witness :
    (onUploadImage { url := "a.png", id := 1, media_type := some "image" }).mediaType
      = some "image" ∧
    (onUploadImage { url := "b.mp4", id := 2, media_type := some "file" }).mediaType
      = some "video" ∧
    (onUploadImage { url := "c.mp4", id := 3, type := some "video" }).mediaType
      = some "video" :=
  ⟨(onUploadImage_mediaType_branching _).1 rfl,
   (onUploadImage_mediaType_branching _).2.1 "file" rfl (by decide) (by decide),
   by
    have h := (onUploadImage_mediaType_branching
      { url := "c.mp4", id := 3, type := some "video" }).2.2 rfl
    simpa using h⟩

/-- C2: with `mediaType = "image"` and `imgUrl` set, the serialized markup
holds exactly one `<img>`, whose `src` is that `imgUrl`, and no `<video>`;
symmetrically for `mediaType = "video"`. -/
theorem save_media_exactly_one (getColorClassName : Option String → Option String)
    (attrs : Attributes) (u : String) (hu : attrs.imgUrl = some u) :
    (attrs.mediaType = some "image" →
      countTag "img" (save getColorClassName attrs) = 1 ∧
      tagSrcs "img" (save getColorClassName attrs) = [some u] ∧
      countTag "video" (save getColorClassName attrs) = 0) ∧
    (attrs.mediaType = some "video" →
      countTag "video" (save getColorClassName attrs) = 1 ∧
      tagSrcs "video" (save getColorClassName attrs) = [some u] ∧
      countTag "img" (save getColorClassName attrs) = 0) := by
  constructor
  · intro hm
    refine ⟨?_, ?_, ?_⟩ <;>
      simp [save, saveMediaRender, hm, hu, countTag, countTagL, tagSrcs, tagSrcsL,
        countTagL_append, countTagL_map_text, tagSrcsL_append, tagSrcsL_map_text] <;>
      cases attrs.extras <;> simp [countTagL, countTag, tagSrcsL] <;> try decide
  · intro hm
    refine ⟨?_, ?_, ?_⟩ <;>
      simp [save, saveMediaRender, hm, hu, countTag, countTagL, tagSrcs, tagSrcsL,
        countTagL_append, countTagL_map_text, tagSrcsL_append, tagSrcsL_map_text] <;>
      cases attrs.extras <;> simp [countTagL, countTag, tagSrcsL] <;> try decide

theorem save_media_exactly_one_witness :
    countTag "img" (save (fun _ => none)
      { content := ["hi"], imgUrl := some "a.png", mediaType := some "image" }) = 1 ∧
    tagSrcs "img" (save (fun _ => none)
      { content := ["hi"], imgUrl := some "a.png", mediaType := some "image" })
      = [some "a.png"] ∧
    countTag "video" (save (fun _ => none)
      { content := ["hi"], imgUrl := some "a.png", mediaType := some "image" }) = 0 :=
  (save_media_exactly_one (fun _ => none)
    { content := ["hi"], imgUrl := some "a.png", mediaType := some "image" }
    "a.png" rfl).1 rfl

/-- C3: for any `mediaType` other than `"image"`/`"video"` (absent
included) the serializer emits no `<img>` and no `<video>`, and still
returns the ordinary `div` wrapper markup rather than signalling an error. -/
theorem save_unrecognized_mediaType_silent
    (getColorClassName : Option String → Option String) (attrs : Attributes)
    (h1 : attrs.mediaType ≠ some "image") (h2 : attrs.mediaType ≠ some "video") :
    countTag "img" (save getColorClassName attrs) = 0 ∧
    countTag "video" (save getColorClassName attrs) = 0 ∧
    rootTag (save getColorClassName attrs) = some "div" := by
  have hm : saveMediaRender attrs = [] := by
    unfold saveMediaRender
    split
    · simp_all
    · simp_all
    · rfl
  refine ⟨?_, ?_, rfl⟩ <;>
    simp [save, hm, countTag, countTagL, countTagL_append, countTagL_map_text] <;>
    cases attrs.extras <;> simp [countTagL, countTag] <;> try decide

theorem save_unrecognized_mediaType_silent_witness :
    countTag "img" (save (fun _ => none)
      { content := [], imgUrl := some "a.gif", mediaType := some "audio" }) = 0 ∧
    countTag "video" (save (fun _ => none)
      { content := [], imgUrl := some "a.gif", mediaType := some "audio" }) = 0 ∧
    rootTag (save (fun _ => none)
      { content := [], imgUrl := some "a.gif", mediaType := some "audio" })
      = some "div" :=
  save_unrecognized_mediaType_silent (fun _ => none)
    { content := [], imgUrl := some "a.gif", mediaType := some "audio" }
    (by decide) (by decide)

/-- C4: when the theme color-class lookup resolves `backgroundColor` to a
(truthy) background class, the serialized inline style leaves
`background-color` unset even if `customBackgroundColor` is set; when no
class resolves, the inline style carries `customBackgroundColor`. -/
theorem save_style_background_precedence
    (getColorClassName : Option String → Option String) (attrs : Attributes) :
    (tstr (getColorClassName attrs.backgroundColor) = true →
      rootStyle (save getColorClassName attrs) =
        some { backgroundColor := none, textAlign := attrs.contentAlign }) ∧
    (tstr (getColorClassName attrs.backgroundColor) = false →
      rootStyle (save getColorClassName attrs) =
        some { backgroundColor := attrs.customBackgroundColor,
               textAlign := attrs.contentAlign }) := by
  constructor
  · intro h
    simp [save, rootStyle, saveStyles, h]
  · intro h
    simp [save, rootStyle, saveStyles, h]

theorem save_style_background_precedence_witness :
    rootStyle (save (fun o => o.map (fun s => "has-" ++ s ++ "-background-color"))
      { content := [], backgroundColor := some "pale-pink",
        customBackgroundColor := some "#ff0000" }) =
      some { backgroundColor := none, textAlign := none } :=
  (save_style_background_precedence
    (fun o => o.map (fun s => "has-" ++ s ++ "-background-color"))
    { content := [], backgroundColor := some "pale-pink",
      customBackgroundColor := some "#ff0000" }).1 (by decide)

/-- C5: the two-paragraph footer is a child of the serialized wrapper
exactly when `extras` is true; with `extras` false no footer `div` (or any
other nested `div`) appears in the output. -/
theorem save_extras_footer (getColorClassName : Option String → Option String)
    (attrs : Attributes) :
    (attrs.extras = true →
      saveFooter ∈ rootChildren (save getColorClassName attrs) ∧
      countTag "div" (save getColorClassName attrs) = 2) ∧
    (attrs.extras = false →
      countTag "div" (save getColorClassName attrs) = 1) := by
  have hmr : countTagL "div" (saveMediaRender attrs) = 0 := by
    unfold saveMediaRender
    split <;> simp [countTagL, countTag]
  constructor
  · intro h
    constructor
    · simp [save, rootChildren, h]
    · simp [save, h, countTag, countTagL, countTagL_append, countTagL_map_text, hmr]
      decide
  · intro h
    simp [save, h, countTag, countTagL, countTagL_append, countTagL_map_text, hmr]

theorem save_extras_footer_witness :
    (saveFooter ∈ rootChildren (save (fun _ => none)
      { content := ["x"], extras := true }) ∧
     countTag "div" (save (fun _ => none) { content := ["x"], extras := true }) = 2) ∧
    countTag "div" (save (fun _ => none) { content := ["x"], extras := false }) = 1 :=
  ⟨(save_extras_footer (fun _ => none) { content := ["x"], extras := true }).1 rfl,
   (save_extras_footer (fun _ => none) { content := ["x"], extras := false }).2 rfl⟩

/-- C6: the serializer is a pure, deterministic projection of the
attribute record: two invocations on identical attribute records yield
identical markup. -/
theorem save_deterministic (getColorClassName : Option String → Option String)
    (a b : Attributes) (h : a = b) :
    save getColorClassName a = save getColorClassName b := by
  rw [h]

theorem save_deterministic_witness :
    save (fun _ => none) { content := ["party"], mediaType := some "image" } =
      save (fun _ => none) { content := ["party"], mediaType := some "image" } :=
  save_deterministic (fun _ => none)
    { content := ["party"], mediaType := some "image" }
    { content := ["party"], mediaType := some "image" } rfl

/-- C7 as stated is false for the serializer: at a record with
`mediaType = "image"` and `imgUrl` absent, `save` still renders an
`<img>` element (with no `src`), so the output is not media-free. -/
theorem save_media_without_imgUrl_counterexample :
    ({ content := [], imgUrl := none, mediaType := some "image" } : Attributes).imgUrl
      = none ∧
    countTag "img" (save (fun _ => none)
      { content := [], imgUrl := none, mediaType := some "image" }) = 1 ∧
    tagSrcs "img" (save (fun _ => none)
      { content := [], imgUrl := none, mediaType := some "image" }) = [none] := by
  refine ⟨rfl, ?_, ?_⟩ <;> decide

/-- C7 amended: with `imgUrl` absent the editable render function renders
no media element, regardless of `mediaType`; the serializer, by contrast,
still renders a media element — with no `src` — whenever `mediaType` is
`"image"` or `"video"`. -/
theorem edit_no_media_without_imgUrl (className : Option String)
    (isSelected : Bool) (bg : ColorObject)
    (getColorClassName : Option String → Option String)
    (attrs : Attributes) (h : attrs.imgUrl = none) :
    countTag "img" (edit className isSelected bg attrs) = 0 ∧
    countTag "video" (edit className isSelected bg attrs) = 0 ∧
    (attrs.mediaType = some "image" →
      tagSrcs "img" (save getColorClassName attrs) = [none]) ∧
    (attrs.mediaType = some "video" →
      tagSrcs "video" (save getColorClassName attrs) = [none]) := by
  have ht : tstr attrs.imgUrl = false := by simp [h, tstr]
  refine ⟨?_, ?_, ?_, ?_⟩
  · simp [edit, ht, countTag, countTagL, countTagL_append, countTagL_map_text] <;>
      cases isSelected <;> cases attrs.extras <;>
      simp [countTagL, countTag] <;> try decide
  · simp [edit, ht, countTag, countTagL, countTagL_append, countTagL_map_text] <;>
      cases isSelected <;> cases attrs.extras <;>
      simp [countTagL, countTag] <;> try decide
  · intro hm
    simp [save, saveMediaRender, hm, h, tagSrcs, tagSrcsL, tagSrcsL_append,
      tagSrcsL_map_text] <;> cases attrs.extras <;> simp [tagSrcsL] <;> try decide
  · intro hm
    simp [save, saveMediaRender, hm, h, tagSrcs, tagSrcsL, tagSrcsL_append,
      tagSrcsL_map_text] <;> cases attrs.extras <;> simp [tagSrcsL] <;> try decide

theorem edit_no_media_without_imgUrl_witness :
    countTag "img" (edit (some "wp-block") true {}
      { content := ["x"], imgUrl := none, mediaType := some "image" }) = 0 ∧
    countTag "video" (edit (some "wp-block") true {}
      { content := ["x"], imgUrl := none, mediaType := some "image" }) = 0 ∧
    tagSrcs "img" (save (fun _ => none)
      { content := ["x"], imgUrl := none, mediaType := some "image" }) = [none] :=
  have h := edit_no_media_without_imgUrl (some "wp-block") true {} (fun _ => none)
    { content := ["x"], imgUrl := none, mediaType := some "image" } rfl
  ⟨h.1, h.2.1, h.2.2.1 rfl⟩

/-- C8 as stated is false: at a record whose only background setting is
`customBackgroundColor`, the serializer's class set contains
`has-background`, which the editable renderer never computes from the
attributes. -/
theorem save_vs_edit_classes_counterexample :
    "has-background" ∈ saveClasses (fun _ => none)
      { content := [], customBackgroundColor := some "#ff0000" } ∧
    "has-background" ∉ editAttrClasses
      { color := some "#ff0000", colorClass := none }
      ({ content := [], customBackgroundColor := some "#ff0000" } : Attributes).contentAlign := by
  constructor <;> decide

/-- C8 amended: given the host-computed color object (whose class comes
from the same theme lookup), the serializer's class list is exactly the
editable renderer's attribute-derived class list with `has-background`
prepended precisely when `backgroundColor` or `customBackgroundColor` is
truthy; the background-class and alignment classes coincide. -/
theorem saveClasses_refines_editAttrClasses
    (getColorClassName : Option String → Option String) (bg : ColorObject)
    (attrs : Attributes)
    (hclass : bg.colorClass = getColorClassName attrs.backgroundColor) :
    saveClasses getColorClassName attrs =
      (if tstr attrs.backgroundColor || tstr attrs.customBackgroundColor
        then ["has-background"] else []) ++
      editAttrClasses bg attrs.contentAlign := by
  simp [saveClasses, editAttrClasses, hclass]

theorem saveClasses_refines_editAttrClasses_witness :
    saveClasses (fun o => o.map (fun s => "has-" ++ s ++ "-background-color"))
      { content := [], backgroundColor := some "pale-pink",
        contentAlign := some "center" } =
      ["has-background"] ++
      editAttrClasses
        { color := some "#f78da7", colorClass := some "has-pale-pink-background-color" }
        (some "center") :=
  saveClasses_refines_editAttrClasses
    (fun o => o.map (fun s => "has-" ++ s ++ "-background-color"))
    { color := some "#f78da7", colorClass := some "has-pale-pink-background-color" }
    { content := [], backgroundColor := some "pale-pink",
      contentAlign := some "center" } rfl

/-- C9: a media selection updates exactly `imgUrl`, `imgId` and
`mediaType` through the single `setAttributes` call; `content`,
`backgroundColor`, `customBackgroundColor`, `extras` and `contentAlign`
are untouched. -/
theorem onUploadImage_frame (attrs : Attributes) (media : MediaSelection) :
    (applyMediaUpdate attrs (onUploadImage media)).content = attrs.content ∧
    (applyMediaUpdate attrs (onUploadImage media)).backgroundColor
      = attrs.backgroundColor ∧
    (applyMediaUpdate attrs (onUploadImage media)).customBackgroundColor
      = attrs.customBackgroundColor ∧
    (applyMediaUpdate attrs (onUploadImage media)).extras = attrs.extras ∧
    (applyMediaUpdate attrs (onUploadImage media)).contentAlign = attrs.contentAlign ∧
    (applyMediaUpdate attrs (onUploadImage media)).imgUrl = some media.url ∧
    (applyMediaUpdate attrs (onUploadImage media)).imgId = some media.id ∧
    (applyMediaUpdate attrs (onUploadImage media)).mediaType
      = (onUploadImage media).mediaType := by
  simp [applyMediaUpdate, onUploadImage]

/-- C10: in the editable render function, with a truthy `imgUrl`, every
`mediaType` other than `"image"` — absent and unrecognized values
included — renders exactly one `<video>` element and no `<img>`: the
editor never silently omits the media element. -/
theorem edit_video_for_non_image (className : Option String) (isSelected : Bool)
    (bg : ColorObject) (attrs : Attributes)
    (hu : tstr attrs.imgUrl = true) (hm : attrs.mediaType ≠ some "image") :
    countTag "video" (edit className isSelected bg attrs) = 1 ∧
    countTag "img" (edit className isSelected bg attrs) = 0 := by
  constructor <;>
    simp [edit, hu, getMedia, hm, countTag, countTagL, countTagL_append,
      countTagL_map_text] <;>
    cases isSelected <;> cases attrs.extras <;>
    simp [countTagL, countTag] <;> try decide

theorem edit_video_for_non_image_witness :
    countTag "video" (edit (some "wp-block") false {}
      { content := ["x"], imgUrl := some "a.mp4", mediaType := some "file" }) = 1 ∧
    countTag "img" (edit (some "wp-block") false {}
      { content := ["x"], imgUrl := some "a.mp4", mediaType := some "file" }) = 0 :=
  edit_video_for_non_image (some "wp-block") false {}
    { content := ["x"], imgUrl := some "a.mp4", mediaType := some "file" }
    (by decide) (by decide)

end HelloGutenberg
